import Mathlib

/-!
Verification of the pycorels Cython binding layer (src/libcorels.pyx).

We shallowly embed the three wrapper functions the claims are about:

* `predict_wrap` (lines 42-98): rule-list evaluation over a binary sample
  matrix.  The C local `next_rule` is declared without an initializer and,
  when the rule list holds only the default rule, is read before it is ever
  assigned; we model its (uninitialized, call-dependent) initial content as
  the explicit parameter `nrInit`.
* `fit_wrap_begin` (lines 158-256): the multi-step session construction.
  The native collaborators (`ascii_to_vector`, `mine_rules`, `minority`,
  `run_corels_begin`) are outside the binding, so the model takes an input
  record carrying each collaborator outcome and the discovered dimensions,
  and tracks allocations of the five heap objects the binding manages
  (samples vectors, feature-name array, mined rule pool, label vectors,
  minority record) together with the four module-level globals.
* `fit_wrap_end` (lines 262-296): construction of the returned rule list
  from the optimal path reported by `run_corels_end`.

Machine integers of the binding are modelled as `Int` (C `int`) and the
`np.uint8` output cells as `Nat` values reduced mod 256 on store (`toU8`).
-/

instance {ε α : Type} [DecidableEq ε] [DecidableEq α] : DecidableEq (Except ε α) :=
  fun a b =>
    match a, b with
    | .ok x, .ok y =>
      if h : x = y then .isTrue (by rw [h]) else .isFalse (by simp [h])
    | .error x, .error y =>
      if h : x = y then .isTrue (by rw [h]) else .isFalse (by simp [h])
    | .ok _, .error _ => .isFalse (by simp)
    | .error _, .ok _ => .isFalse (by simp)

/-- A rule-list entry as marshalled between Python and the binding:
the `antecedents` key (signed literal ids) and the `prediction` key. -/
structure Rule where
  antecedents : List Int
  prediction : Int
deriving DecidableEq

/-- Storing a C `int` into a `np.uint8` cell wraps modulo 256. -/
def toU8 (v : Int) : Nat := (v % 256).toNat

/-- Reading `X[s, idx]` with a (possibly negative) C `int` index.  The
source compiles with `boundscheck(False)`/`wraparound(False)`, so a
negative index would be an out-of-bounds read; the model returns 0 there
and every theorem below assumes literal ids are nonzero, which keeps the
index nonnegative (lines 74-81). -/
def rowGet (row : List Nat) (idx : Int) : Nat :=
  if idx < 0 then 0 else row.getD idx.toNat 0

/-- Lines 74-83 of `predict_wrap`, for one literal: compute the polarity
`c`, strip the sign, shift to 0-based, and report whether the literal
fails on this row (sets `next_rule = 1`). -/
def litFail (row : List Nat) (nfeatures : Nat) (lit : Int) : Bool :=
  let c : Nat := if lit < 0 then 0 else 1
  let idx : Int := (if lit < 0 then -lit else lit) - 1
  decide ((nfeatures : Int) ≤ idx) || decide (rowGet row idx ≠ c)

/-- Lines 71-83: the antecedent loop of one rule.  Returns the value of
`next_rule` after the loop: `true` (1) when some literal failed and the
loop broke out, `false` (0) when every literal held. -/
def antLoop (row : List Nat) (nfeatures : Nat) : List Int → Bool
  | [] => false
  | l :: ls => if litFail row nfeatures l then true else antLoop row nfeatures ls

/-- Lines 70-90: the rule loop for one sample, threading the C local
`next_rule` (second component).  The argument `nr` is the value
`next_rule` holds on entry (left over from the previous sample, or the
uninitialized stack content for the first one); it is only consulted when
the list of non-default rules is empty, since otherwise the first
iteration assigns `next_rule`.  Returns the value stored into `out[s]`
(whose `np.zeros` initial content is 0) and the final `next_rule`. -/
def ruleLoop (row : List Nat) (nfeatures : Nat) (dflt : Int) :
    List Rule → Int → Nat × Int
  | [], nr => (if nr = 1 then toU8 dflt else 0, nr)
  | r :: rs, _ =>
    if antLoop row nfeatures r.antecedents then ruleLoop row nfeatures dflt rs 1
    else (toU8 r.prediction, 0)

/-- Lines 69-90: the sample loop, threading `next_rule` across samples. -/
def sampleLoop (nfeatures : Nat) (dflt : Int) (rulesND : List Rule) :
    List (List Nat) → Int → List Nat
  | [], _ => []
  | row :: rest, nr =>
    let p := ruleLoop row nfeatures dflt rulesND nr
    p.1 :: sampleLoop nfeatures dflt rulesND rest p.2

/-- `predict_wrap` (lines 42-98).  `X` is the sample matrix (`nfeatures`
its column count `X.shape[1]`), `features` the feature-name list of the
rule list, `rules` the rule list (last entry = default rule), and
`nrInit` the uninitialized initial content of the C local `next_rule`.
Line 46 check, line 52 early return for a fully empty list, then the
evaluation loops; the default rule itself is never evaluated
(`range(nrules)` stops before it, line 70). -/
def predict_wrap (X : List (List Nat)) (nfeatures : Nat) (features : List String)
    (rules : List Rule) (nrInit : Int) : Except String (List Nat) :=
  if (nfeatures : Int) ≠ (features.length : Int) - 1 then
    .error "Feature count mismatch between prediction data and rulelist"
  else if rules.length = 0 then
    .ok (List.replicate X.length 0)
  else
    .ok (sampleLoop nfeatures ((rules.getLast?.getD ⟨[], 0⟩).prediction)
          rules.dropLast X nrInit)

/-! Spec-side model of rule-list evaluation, phrased from the claim: a
positive literal id `k` requires feature `k-1` to equal 1, a negative id
requires feature `k-1` to equal 0, an index beyond the feature count
makes the rule non-matching; the first matching rule wins, else the
default class. -/

/-- Claim wording: does one literal hold on this row? -/
def specLitHolds (row : List Nat) (nfeatures : Nat) (lit : Int) : Bool :=
  if 0 < lit then
    decide ((lit - 1).toNat < nfeatures) && decide (row.getD (lit - 1).toNat 0 = 1)
  else
    decide ((-lit - 1).toNat < nfeatures) && decide (row.getD (-lit - 1).toNat 0 = 0)

/-- Claim wording: a rule matches iff every literal in its antecedent holds. -/
def specMatches (row : List Nat) (nfeatures : Nat) (r : Rule) : Bool :=
  r.antecedents.all (specLitHolds row nfeatures)

/-- Claim wording: the first matching rule decides; else the default class. -/
def specPredictRow (row : List Nat) (nfeatures : Nat) (rulesND : List Rule)
    (dflt : Int) : Int :=
  match rulesND.find? (specMatches row nfeatures) with
  | some r => r.prediction
  | none => dflt

example : predict_wrap [[0,0],[0,1],[1,0],[1,1]] 2 ["a","b","d"]
    [⟨[2], 1⟩, ⟨[0], 0⟩] 0 = .ok [0,1,0,1] := by decide

example : predict_wrap [[1]] 1 ["f","d"] [⟨[0], 1⟩] 0 = .ok [0] := by decide
example : predict_wrap [[1]] 1 ["f","d"] [⟨[0], 1⟩] 1 = .ok [1] := by decide

/-! Equivalence of the embedded evaluation loops with the spec-side model,
for nonzero literal ids. -/

theorem litFail_eq_not_specLitHolds (row : List Nat) (nf : Nat) {lit : Int}
    (h : lit ≠ 0) : litFail row nf lit = !specLitHolds row nf lit := by
  by_cases hneg : lit < 0
  · have hnp : ¬ (0 < lit) := by omega
    have hidx : ¬ (-lit - 1 < (0 : Int)) := by omega
    simp only [litFail, specLitHolds, rowGet, if_pos hneg, if_neg hnp, if_neg hidx,
      Bool.not_and]
    rw [← decide_not, ← decide_not]
    congr 1
    exact decide_eq_decide.mpr (by omega)
  · have hpos : 0 < lit := by omega
    have hidx : ¬ (lit - 1 < (0 : Int)) := by omega
    simp only [litFail, specLitHolds, rowGet, if_neg hneg, if_pos hpos, if_neg hidx,
      Bool.not_and]
    rw [← decide_not, ← decide_not]
    congr 1
    exact decide_eq_decide.mpr (by omega)

theorem antLoop_eq_not_specMatches (row : List Nat) (nf : Nat) (ants : List Int)
    (h : ∀ l ∈ ants, l ≠ 0) :
    antLoop row nf ants = !ants.all (specLitHolds row nf) := by
  induction ants with
  | nil => simp [antLoop]
  | cons l ls ih =>
    have hl : l ≠ 0 := h l (by simp)
    have hls : ∀ x ∈ ls, x ≠ 0 := fun x hx => h x (by simp [hx])
    simp only [antLoop, List.all_cons, litFail_eq_not_specLitHolds row nf hl]
    by_cases hh : specLitHolds row nf l = true <;> simp [hh, ih hls]

theorem ruleLoop_next_rule_irrelevant (row : List Nat) (nf : Nat) (dflt : Int)
    (rs : List Rule) (h : rs ≠ []) (a b : Int) :
    ruleLoop row nf dflt rs a = ruleLoop row nf dflt rs b := by
  cases rs with
  | nil => exact absurd rfl h
  | cons r rest => rfl

theorem ruleLoop_fst_one (row : List Nat) (nf : Nat) (dflt : Int)
    (rs : List Rule) (h : ∀ r ∈ rs, ∀ l ∈ r.antecedents, l ≠ 0) :
    (ruleLoop row nf dflt rs 1).1 = toU8 (specPredictRow row nf rs dflt) := by
  induction rs with
  | nil => simp [ruleLoop, specPredictRow]
  | cons r rest ih =>
    have hr : ∀ l ∈ r.antecedents, l ≠ 0 := h r (by simp)
    have hrest : ∀ x ∈ rest, ∀ l ∈ x.antecedents, l ≠ 0 :=
      fun x hx => h x (List.mem_cons_of_mem _ hx)
    by_cases hm : specMatches row nf r = true
    · have hfail : antLoop row nf r.antecedents = false := by
        rw [antLoop_eq_not_specMatches row nf r.antecedents hr]
        simpa [specMatches] using hm
      have hsp : specPredictRow row nf (r :: rest) dflt = r.prediction := by
        simp [specPredictRow, List.find?_cons, hm]
      simp [ruleLoop, hfail, hsp]
    · have hfail : antLoop row nf r.antecedents = true := by
        rw [antLoop_eq_not_specMatches row nf r.antecedents hr]
        simpa [specMatches] using hm
      have hm2 : specMatches row nf r = false := by simpa using hm
      have hsp : specPredictRow row nf (r :: rest) dflt =
          specPredictRow row nf rest dflt := by
        simp [specPredictRow, List.find?_cons, hm2]
      simp only [ruleLoop, hfail, if_true, hsp]
      exact ih hrest

theorem ruleLoop_fst (row : List Nat) (nf : Nat) (dflt : Int)
    (rs : List Rule) (hne : rs ≠ [])
    (h : ∀ r ∈ rs, ∀ l ∈ r.antecedents, l ≠ 0) (nr : Int) :
    (ruleLoop row nf dflt rs nr).1 = toU8 (specPredictRow row nf rs dflt) := by
  rw [ruleLoop_next_rule_irrelevant row nf dflt rs hne nr 1]
  exact ruleLoop_fst_one row nf dflt rs h

theorem sampleLoop_eq_map (nf : Nat) (dflt : Int) (rulesND : List Rule)
    (hne : rulesND ≠ [])
    (h : ∀ r ∈ rulesND, ∀ l ∈ r.antecedents, l ≠ 0)
    (X : List (List Nat)) (nr : Int) :
    sampleLoop nf dflt rulesND X nr =
      X.map (fun row => toU8 (specPredictRow row nf rulesND dflt)) := by
  induction X generalizing nr with
  | nil => simp [sampleLoop]
  | cons row rest ih =>
    simp only [sampleLoop, List.map_cons]
    exact congrArg₂ _ (ruleLoop_fst row nf dflt rulesND hne h nr) (ih _)

theorem toU8_eq_toNat {p : Int} (h0 : 0 ≤ p) (h1 : p < 256) : toU8 p = p.toNat := by
  unfold toU8
  rw [Int.emod_eq_of_lt h0 h1]

/-- C1 (amended): for every samples matrix and rule list that pass the
feature-count check, hold at least one rule ahead of the default one
(list length at least 2), use only nonzero literal ids in the evaluated
rules, and whose predicted classes fit in a byte, `predict_wrap` emits
for each sample, in list order, the class of the first rule whose every
literal holds (a positive literal id k requires feature k-1 to equal 1, a
negative id requires feature k-1 to equal 0, and a 1-based index beyond
the feature count makes the rule non-matching rather than an error), and
the default rule class when no rule matches. -/
theorem C1_predict_first_match (X : List (List Nat)) (nfeatures : Nat)
    (features : List String) (rules : List Rule) (nrInit : Int)
    (hfc : (nfeatures : Int) = (features.length : Int) - 1)
    (hlen : 2 ≤ rules.length)
    (hnz : ∀ r ∈ rules.dropLast, ∀ l ∈ r.antecedents, l ≠ 0)
    (hrange : ∀ r ∈ rules, 0 ≤ r.prediction ∧ r.prediction < 256) :
    predict_wrap X nfeatures features rules nrInit =
      .ok (X.map fun row =>
        (specPredictRow row nfeatures rules.dropLast
          ((rules.getLast?.getD ⟨[], 0⟩).prediction)).toNat) := by
  have hne : rules ≠ [] := by
    intro h
    rw [h] at hlen
    simp at hlen
  have hdne : rules.dropLast ≠ [] := by
    intro h
    have h2 := List.length_dropLast rules
    rw [h] at h2
    simp only [List.length_nil] at h2
    omega
  have hdflt : rules.getLast?.getD ⟨[], 0⟩ ∈ rules := by
    rw [List.getLast?_eq_getLast rules hne]
    simp only [Option.getD_some]
    exact List.getLast_mem hne
  unfold predict_wrap
  rw [if_neg (by omega), if_neg (by omega)]
  rw [sampleLoop_eq_map _ _ _ hdne hnz X nrInit]
  congr 1
  apply List.map_congr_left
  intro row _
  have hp : 0 ≤ specPredictRow row nfeatures rules.dropLast
        ((rules.getLast?.getD ⟨[], 0⟩).prediction) ∧
      specPredictRow row nfeatures rules.dropLast
        ((rules.getLast?.getD ⟨[], 0⟩).prediction) < 256 := by
    unfold specPredictRow
    cases hfind : rules.dropLast.find? (specMatches row nfeatures) with
    | none => exact hrange _ hdflt
    | some r =>
      exact hrange r ((List.dropLast_sublist rules).subset
        (List.mem_of_find?_eq_some hfind))
  exact toU8_eq_toNat hp.1 hp.2

/-- C1 witness: the spec scenario (4 samples over 2 features, rule list
with one rule on literal 2 then the default) instantiates the amended
claim; the emitted classes are those of the spec-side first-match model. -/
theorem C1_predict_first_match_witness :
    predict_wrap [[0,0],[0,1],[1,0],[1,1]] 2 ["f0", "f1", "default"]
        [⟨[2], 1⟩, ⟨[0], 0⟩] 5 =
      .ok ([[0,0],[0,1],[1,0],[1,1]].map fun row =>
        (specPredictRow row 2 ([⟨[2], 1⟩, ⟨[0], 0⟩] : List Rule).dropLast
          ((([⟨[2], 1⟩, ⟨[0], 0⟩] : List Rule).getLast?.getD
            ⟨[], 0⟩).prediction)).toNat) :=
  C1_predict_first_match _ _ _ _ _ (by decide) (by decide) (by decide) (by decide)

/-- C1 counterexample: a rule list holding only the default rule (class 1)
passes the feature-count check and no rule matches, so the claim demands
the default class 1 for the single sample; the first-match model indeed
gives 1, but the code returns 0, because with `nrules == 0` the rule loop
never assigns the uninitialized local `next_rule` (here entering as 0)
and `out[s]` keeps its `np.zeros` content. -/
theorem C1_counterexample :
    predict_wrap [[1]] 1 ["f1", "default"] [⟨[0], 1⟩] 0 = .ok [0] ∧
    (specPredictRow [1] 1 ([⟨[0], 1⟩] : List Rule).dropLast
      ((([⟨[0], 1⟩] : List Rule).getLast?.getD ⟨[], 0⟩).prediction)).toNat
      = 1 := by decide

/-- C4: on a default-only rule list the stored class is whatever the
uninitialized `next_rule` makes it: 0 (the untouched `np.zeros` cell)
when the garbage on the C stack is not 1, and the default class only when
it happens to be exactly 1 — the code does not reliably return the
default class claimed. -/
theorem C4_default_only_uninitialized :
    predict_wrap [[1, 0]] 2 ["a", "b", "d"] [⟨[0], 1⟩] 0 = .ok [0] ∧
    predict_wrap [[1, 0]] 2 ["a", "b", "d"] [⟨[0], 1⟩] 1 = .ok [1] := by decide

theorem sampleLoop_next_rule_irrelevant (nf : Nat) (dflt : Int)
    (rulesND : List Rule) (hne : rulesND ≠ []) (X : List (List Nat))
    (a b : Int) : sampleLoop nf dflt rulesND X a = sampleLoop nf dflt rulesND X b := by
  cases X with
  | nil => rfl
  | cons row rest =>
    simp only [sampleLoop]
    rw [ruleLoop_next_rule_irrelevant row nf dflt rulesND hne a b]

/-- C5 (amended): whenever the rule list is not exactly the lone default
rule (it is completely empty, or holds at least one rule ahead of the
default), the result of `predict_wrap` does not depend on the content the
uninitialized local `next_rule` happens to start with, so two calls on
identical samples, features and rules return identical predictions; the
rule list is only read (the model threads it unchanged). -/
theorem C5_deterministic (X : List (List Nat)) (nfeatures : Nat)
    (features : List String) (rules : List Rule) (a b : Int)
    (h : rules.length ≠ 1) :
    predict_wrap X nfeatures features rules a =
      predict_wrap X nfeatures features rules b := by
  unfold predict_wrap
  by_cases h1 : (nfeatures : Int) ≠ (features.length : Int) - 1
  · rw [if_pos h1, if_pos h1]
  · rw [if_neg h1, if_neg h1]
    by_cases h2 : rules.length = 0
    · rw [if_pos h2, if_pos h2]
    · rw [if_neg h2, if_neg h2]
      have hdne : rules.dropLast ≠ [] := by
        intro hh
        have h3 := List.length_dropLast rules
        rw [hh] at h3
        simp only [List.length_nil] at h3
        omega
      rw [sampleLoop_next_rule_irrelevant _ _ _ hdne X a b]

/-- C5 witness: two calls on the spec scenario with different residual
stack contents for `next_rule` agree. -/
theorem C5_deterministic_witness :
    predict_wrap [[0, 1]] 2 ["a", "b", "d"] [⟨[2], 1⟩, ⟨[0], 0⟩] 7 =
      predict_wrap [[0, 1]] 2 ["a", "b", "d"] [⟨[2], 1⟩, ⟨[0], 0⟩] (-3) :=
  C5_deterministic _ _ _ _ _ _ (by decide)

/-- C5 counterexample: on a default-only rule list two calls whose
uninitialized `next_rule` content differs (0 vs 1) return different
predictions, so `predict_wrap` is not deterministic as claimed. -/
theorem C5_counterexample :
    predict_wrap [[0, 1]] 2 ["a", "b", "d"] [⟨[0], 1⟩] 0 ≠
      predict_wrap [[0, 1]] 2 ["a", "b", "d"] [⟨[0], 1⟩] 1 := by decide

/-- C6: `predict_wrap` raises the feature-count `ValueError` exactly when
the matrix column count differs from the stored feature-name count minus
one; the error result carries no predictions. -/
theorem C6_feature_check (X : List (List Nat)) (nfeatures : Nat)
    (features : List String) (rules : List Rule) (nrInit : Int) :
    (∃ e, predict_wrap X nfeatures features rules nrInit = .error e) ↔
      (nfeatures : Int) ≠ (features.length : Int) - 1 := by
  constructor
  · rintro ⟨e, he⟩
    intro hc
    unfold predict_wrap at he
    rw [if_neg (by omega)] at he
    by_cases h2 : rules.length = 0
    · rw [if_pos h2] at he
      exact Except.noConfusion he
    · rw [if_neg h2] at he
      exact Except.noConfusion he
  · intro h
    refine ⟨"Feature count mismatch between prediction data and rulelist", ?_⟩
    unfold predict_wrap
    rw [if_pos h]

/-- C10: a completely empty rule list (no rules at all, not even the
default) takes the early return at line 52: no error is raised and the
prediction is class 0 (the `np.zeros` content) for every sample. -/
theorem C10_empty_rule_list (X : List (List Nat)) (nfeatures : Nat)
    (features : List String) (nrInit : Int)
    (h : (nfeatures : Int) = (features.length : Int) - 1) :
    predict_wrap X nfeatures features [] nrInit =
      .ok (List.replicate X.length 0) := by
  unfold predict_wrap
  rw [if_neg (by omega)]
  rfl

/-- C10 witness: two samples over two features, empty rule list. -/
theorem C10_empty_rule_list_witness :
    predict_wrap [[1, 0], [0, 1]] 2 ["a", "b", "d"] [] 9 = .ok [0, 0] :=
  C10_empty_rule_list _ _ _ _ (by decide)

/-! Model of `fit_wrap_begin` (lines 158-256).  The binding manages five
heap objects (samples vectors, feature-name array, mined rule pool,
label vectors, minority record) and four module globals (`rules`,
`nrules`, `labels_vecs`, `minor`).  Allocations are numbered by a fresh
counter; `live` is the set of ids currently allocated and not freed, so
a global holding an id outside `live` models a dangling freed pointer.
The native collaborators are outside src/, so their outcomes (and the
dimensions `ascii_to_vector` discovers) are fields of the input record. -/

structure GState where
  rulesPtr : Option Nat
  nrules : Int
  labelsPtr : Option Nat
  minorPtr : Option Nat
  live : List Nat
  next : Nat
deriving DecidableEq

def alloc (g : GState) : Nat × GState :=
  (g.next, { g with live := g.next :: g.live, next := g.next + 1 })

def freeId (g : GState) (i : Nat) : GState :=
  { g with live := g.live.erase i }

structure BeginIn where
  encodeSamplesOk : Bool
  nfeatures : Nat
  nsamples : Nat
  featuresLen : Nat
  featuresMallocOk : Bool
  mineOk : Bool
  minedRules : Int
  encodeLabelsOk : Bool
  nsamplesChk : Nat
  minorityOk : Bool
  corelsBeginOk : Bool
deriving DecidableEq

/-- The raise sites of `fit_wrap_begin`, named after the source lines. -/
inductive BeginErr
  | couldNotLoadSamples
  | featureCountMismatch
  | memFeatures
  | memMine
  | couldNotLoadLabels
  | sampleCountMismatch
  | memMinority
deriving DecidableEq

def allocSt (g : GState) : GState :=
  { g with live := g.next :: g.live, next := g.next + 1 }

/-- Lines 187-190: a previous pool (non NULL pointer and nonzero count)
is freed and the two globals reset. -/
def resetPool (g : GState) : GState :=
  match g.rulesPtr with
  | some i =>
    if g.nrules ≠ 0 then { freeId g i with rulesPtr := none, nrules := 0 }
    else g
  | none => g

/-- Lines 209-211: a previous label record is freed and its global reset. -/
def resetLabels (g : GState) : GState :=
  match g.labelsPtr with
  | some i => { freeId g i with labelsPtr := none }
  | none => g

/-- Lines 231-233: a previous minority record is freed and its global reset. -/
def resetMinor (g : GState) : GState :=
  match g.minorPtr with
  | some i => { freeId g i with minorPtr := none }
  | none => g

/-- Allocation id of the samples vectors (line 169) and the state after. -/
def svId (g0 : GState) : Nat := g0.next

def stSamples (g0 : GState) : GState := allocSt g0

/-- Allocation id of the feature-name array (line 178) and the state after. -/
def fvId (g0 : GState) : Nat := (stSamples g0).next

def stFeat (g0 : GState) : GState := allocSt (stSamples g0)

/-- Allocation id of the mined pool (line 192). -/
def rpId (g0 : GState) : Nat := (resetPool (stFeat g0)).next

/-- Lines 187-204 completed: old pool reset, pool mined and installed in
the globals, feature-name array and samples vectors freed (lines 195-199). -/
def stPool (inp : BeginIn) (g0 : GState) : GState :=
  { freeId (freeId (allocSt (resetPool (stFeat g0))) (fvId g0)) (svId g0) with
      rulesPtr := some (rpId g0), nrules := inp.minedRules }

/-- Allocation id of the label vectors (line 215). -/
def lpId (inp : BeginIn) (g0 : GState) : Nat := (resetLabels (stPool inp g0)).next

/-- Lines 209-219 completed: old labels reset, labels encoded and installed. -/
def stLabels (inp : BeginIn) (g0 : GState) : GState :=
  { allocSt (resetLabels (stPool inp g0)) with labelsPtr := some (lpId inp g0) }

/-- Allocation id of the minority record (line 235). -/
def mpId (inp : BeginIn) (g0 : GState) : Nat := (resetMinor (stLabels inp g0)).next

/-- Lines 231-235 completed: old minority record reset, fresh one installed. -/
def stMinor (inp : BeginIn) (g0 : GState) : GState :=
  { allocSt (resetMinor (stLabels inp g0)) with minorPtr := some (mpId inp g0) }

/-- `fit_wrap_begin` (lines 158-256) as a transition on the module state:
the chain of guards is the sequence of raise sites in source order (each
later step only runs when every earlier one succeeded), and each arm
carries the exact frees the source performs on that path. -/
def fit_wrap_begin_model (inp : BeginIn) (g0 : GState) :
    Except BeginErr Bool × GState :=
  -- line 169: _to_vector frees its own rows before raising (lines 115-120)
  if inp.encodeSamplesOk = false then (.error .couldNotLoadSamples, g0)
  -- lines 173-176
  else if inp.nfeatures > inp.featuresLen then
    (.error .featureCountMismatch, freeId (stSamples g0) (svId g0))
  -- lines 178-181
  else if inp.featuresMallocOk = false then
    (.error .memFeatures, freeId (stSamples g0) (svId g0))
  -- lines 192-202: on mine failure the feature-name array and the samples
  -- vectors are still freed (lines 195-199) before the MemoryError
  else if inp.mineOk = false then
    (.error .memMine, freeId (freeId (resetPool (stFeat g0)) (fvId g0)) (svId g0))
  -- lines 213-218: the handler frees the pool buffer but leaves the
  -- global pool pointer and count behind
  else if inp.encodeLabelsOk = false then
    (.error .couldNotLoadLabels, freeId (resetLabels (stPool inp g0)) (rpId g0))
  -- lines 220-224: both buffers freed, globals keep the freed pointers
  else if inp.nsamplesChk ≠ inp.nsamples then
    (.error .sampleCountMismatch,
      freeId (freeId (stLabels inp g0) (lpId inp g0)) (rpId g0))
  -- lines 237-241: label and pool buffers freed, globals keep all three
  -- pointers (the fresh minority record is not freed)
  else if inp.minorityOk = false then
    (.error .memMinority,
      freeId (freeId (stMinor inp g0) (lpId inp g0)) (rpId g0))
  -- lines 243-254: full teardown, globals reset, False returned
  else if inp.corelsBeginOk = false then
    (.ok false,
      { freeId (freeId (freeId (stMinor inp g0) (lpId inp g0)) (mpId inp g0))
          (rpId g0) with
          rulesPtr := none, labelsPtr := none, minorPtr := none, nrules := 0 })
  -- line 256
  else (.ok true, stMinor inp g0)

def ptrDangling (p : Option Nat) (live : List Nat) : Bool :=
  match p with
  | none => false
  | some i => !(live.contains i)

/-- Some module global holds a pointer to an already freed buffer. -/
def GState.hasDangling (g : GState) : Bool :=
  ptrDangling g.rulesPtr g.live || ptrDangling g.labelsPtr g.live ||
    ptrDangling g.minorPtr g.live

/-- The module state at import: all globals NULL, `nrules = 0`. -/
def cleanState : GState := ⟨none, 0, none, none, [], 0⟩

/-- A run in which every native step succeeds but the encoded labels
report 3 samples against a 4-row sample matrix. -/
def c2Input : BeginIn := ⟨true, 2, 4, 2, true, true, 3, true, 3, true, true⟩

/-- C2: the label/sample row-count mismatch path is not transactional:
the call raises the sample-count ValueError after freeing the pool and
label buffers, yet leaves the module globals `rules = some 2`,
`labels_vecs = some 3` pointing at those freed buffers and `nrules = 3`,
instead of restoring the pre-call state (all NULL, 0); a later call
would double-free them. -/
theorem C2_no_rollback :
    (fit_wrap_begin_model c2Input cleanState).1 = .error .sampleCountMismatch ∧
    (fit_wrap_begin_model c2Input cleanState).2.rulesPtr = some 2 ∧
    (fit_wrap_begin_model c2Input cleanState).2.labelsPtr = some 3 ∧
    (fit_wrap_begin_model c2Input cleanState).2.nrules = 3 ∧
    (fit_wrap_begin_model c2Input cleanState).2.hasDangling = true := by decide

/-- C7: whatever the prior module state, when the earlier steps succeed
and the encoded labels report a sample count differing from the sample
matrix row count, `fit_wrap_begin` raises the sample-count ValueError
(the rendering in this binding of the EncodingError) instead of truncating
either input. -/
theorem C7_label_row_mismatch (inp : BeginIn) (g : GState)
    (h1 : inp.encodeSamplesOk = true)
    (h2 : inp.nfeatures ≤ inp.featuresLen)
    (h3 : inp.featuresMallocOk = true)
    (h4 : inp.mineOk = true)
    (h5 : inp.encodeLabelsOk = true)
    (h6 : inp.nsamplesChk ≠ inp.nsamples) :
    (fit_wrap_begin_model inp g).1 = .error .sampleCountMismatch := by
  simp [fit_wrap_begin_model, h1, h3, h4, h5, h6, Nat.not_lt.mpr h2]

/-- C7 witness: labels encode to 5 samples against a 6-row matrix. -/
theorem C7_label_row_mismatch_witness :
    (fit_wrap_begin_model ⟨true, 2, 6, 3, true, true, 2, true, 5, true, true⟩
      cleanState).1 = .error .sampleCountMismatch :=
  C7_label_row_mismatch _ _ rfl (by decide) rfl rfl rfl (by decide)

/-- C8: with the sample encoding succeeding, `fit_wrap_begin` raises the
feature-count ValueError exactly when the discovered feature count
exceeds the feature-name list length; when it does not exceed it, the
construction passes this check and never reports this error. -/
theorem C8_feature_name_check (inp : BeginIn) (g : GState)
    (h1 : inp.encodeSamplesOk = true) :
    ((fit_wrap_begin_model inp g).1 = .error .featureCountMismatch ↔
      inp.featuresLen < inp.nfeatures) := by
  constructor
  · intro h
    by_contra hc
    simp only [fit_wrap_begin_model, h1] at h
    split_ifs at h <;> simp_all
  · intro h
    simp [fit_wrap_begin_model, h1, h]

/-- C8 witness: 5 discovered features against 3 feature names. -/
theorem C8_feature_name_check_witness :
    ((fit_wrap_begin_model ⟨true, 5, 4, 3, true, true, 3, true, 4, true, true⟩
      cleanState).1 = .error .featureCountMismatch ↔ 3 < 5) :=
  C8_feature_name_check _ _ rfl

/-- C9 (amended): when the native session start `run_corels_begin`
reports failure, `fit_wrap_begin` does not raise anything: it frees the
pool, label and minority records, resets every module global to
NULL/0 (leaving no dangling pointer), and returns False to the caller. -/
theorem C9_begin_failure_returns_false (inp : BeginIn) (g : GState)
    (h1 : inp.encodeSamplesOk = true)
    (h2 : inp.nfeatures ≤ inp.featuresLen)
    (h3 : inp.featuresMallocOk = true)
    (h4 : inp.mineOk = true)
    (h5 : inp.encodeLabelsOk = true)
    (h6 : inp.nsamplesChk = inp.nsamples)
    (h7 : inp.minorityOk = true)
    (h8 : inp.corelsBeginOk = false) :
    (fit_wrap_begin_model inp g).1 = .ok false ∧
    (fit_wrap_begin_model inp g).2.rulesPtr = none ∧
    (fit_wrap_begin_model inp g).2.labelsPtr = none ∧
    (fit_wrap_begin_model inp g).2.minorPtr = none ∧
    (fit_wrap_begin_model inp g).2.nrules = 0 ∧
    (fit_wrap_begin_model inp g).2.hasDangling = false := by
  simp [fit_wrap_begin_model, h1, h3, h4, h5, h6, h7, h8, Nat.not_lt.mpr h2,
    GState.hasDangling, ptrDangling]

/-- C9 witness: a concrete failing session start on a clean module. -/
theorem C9_begin_failure_returns_false_witness :
    (fit_wrap_begin_model ⟨true, 2, 4, 2, true, true, 3, true, 4, true, false⟩
      cleanState).1 = .ok false ∧
    (fit_wrap_begin_model ⟨true, 2, 4, 2, true, true, 3, true, 4, true, false⟩
      cleanState).2.rulesPtr = none ∧
    (fit_wrap_begin_model ⟨true, 2, 4, 2, true, true, 3, true, 4, true, false⟩
      cleanState).2.labelsPtr = none ∧
    (fit_wrap_begin_model ⟨true, 2, 4, 2, true, true, 3, true, 4, true, false⟩
      cleanState).2.minorPtr = none ∧
    (fit_wrap_begin_model ⟨true, 2, 4, 2, true, true, 3, true, 4, true, false⟩
      cleanState).2.nrules = 0 ∧
    (fit_wrap_begin_model ⟨true, 2, 4, 2, true, true, 3, true, 4, true, false⟩
      cleanState).2.hasDangling = false :=
  C9_begin_failure_returns_false _ _ rfl (by decide) rfl rfl rfl rfl rfl rfl

/-- C9 counterexample: on that same failure the call completes normally
with the value False — no exception (no AllocationError, nothing) is
raised to the caller. -/
theorem C9_counterexample :
    (fit_wrap_begin_model ⟨true, 3, 7, 3, true, true, 2, true, 7, true, false⟩
      cleanState).1 = .ok false := by decide

/-! Model of `fit_wrap_end` (lines 262-296): the construction of the
returned rule list.  `pool` holds the `ids` lists of the mined rules
(the global `rules` array, entry r contributing `ids[0..cardinality)`),
`rulelist` and `classes` are the arrays the native `run_corels_end`
reports (`classes` holds one more entry than `rulelist`, the default
class; a NULL `classes` is modelled as `none`, in which case lines
274-286 are skipped and the empty list is returned). -/
def fit_wrap_end_out (pool : List (List Int)) (rulelist : List Nat)
    (classes : Option (List Int)) : List Rule :=
  match classes with
  | none => []
  | some cs =>
    ((List.range rulelist.length).map fun i =>
      (⟨pool.getD (rulelist.getD i 0) [], cs.getD i 0⟩ : Rule))
      ++ [⟨[0], cs.getD rulelist.length 0⟩]

/-- C3 counterexample: in the spec example scenario (optimal path = pool
rule 1 with literal ids [2] and class 1, default class 0) the returned
list terminates in the synthetic default rule `⟨[0], 0⟩`, whose
antecedent sequence is the placeholder [0] (line 283), not the empty
sequence the claim states. -/
theorem C3_counterexample :
    fit_wrap_end_out [[1], [2]] [1] (some [1, 0]) =
      [⟨[2], 1⟩, ⟨[0], 0⟩] ∧
    ((fit_wrap_end_out [[1], [2]] [1] (some [1, 0])).getLast?.getD
      ⟨[], 0⟩).antecedents ≠ [] := by decide

/-- C3 (amended): whenever the native extractor returns a classes array,
the list built by `fit_wrap_end` is the ordered sequence of chosen rules
— entry i carries the ordered literal ids of pool rule `rulelist[i]` and
predicted class `classes[i]` — terminated by a synthetic default rule
whose antecedent sequence is the single placeholder literal 0 (never
evaluated by the predictor) and whose predicted class is the default
class `classes[rulelist_size]`. -/
theorem C3_extracted_list (pool : List (List Int)) (rulelist : List Nat)
    (cs : List Int) :
    (fit_wrap_end_out pool rulelist (some cs)).length = rulelist.length + 1 ∧
    (∀ i, i < rulelist.length →
      (fit_wrap_end_out pool rulelist (some cs)).getD i ⟨[], 0⟩ =
        ⟨pool.getD (rulelist.getD i 0) [], cs.getD i 0⟩) ∧
    (fit_wrap_end_out pool rulelist (some cs)).getLast? =
      some ⟨[0], cs.getD rulelist.length 0⟩ := by
  refine ⟨by simp [fit_wrap_end_out], ?_, ?_⟩
  · intro i hi
    have hlen : i < ((List.range rulelist.length).map fun i =>
        (⟨pool.getD (rulelist.getD i 0) [], cs.getD i 0⟩ : Rule)).length := by
      simpa using hi
    rw [fit_wrap_end_out]
    rw [List.getD_eq_getElem?_getD, List.getElem?_append_left hlen,
      List.getElem?_map, List.getElem?_range hi]
    rfl
  · rw [fit_wrap_end_out]
    exact List.getLast?_concat _

/-- C3 witness: one chosen rule (pool rule 0, ids [2], class 1) and
default class 0 yield `[⟨[2], 1⟩, ⟨[0], 0⟩]`. -/
theorem C3_extracted_list_witness :
    (fit_wrap_end_out [[2]] [0] (some [1, 0])).length = 2 ∧
    (fit_wrap_end_out [[2]] [0] (some [1, 0])).getD 0 ⟨[], 0⟩ = ⟨[2], 1⟩ ∧
    (fit_wrap_end_out [[2]] [0] (some [1, 0])).getLast? = some ⟨[0], 0⟩ :=
  ⟨(C3_extracted_list [[2]] [0] [1, 0]).1,
   (C3_extracted_list [[2]] [0] [1, 0]).2.1 0 (by decide),
   (C3_extracted_list [[2]] [0] [1, 0]).2.2⟩
